import Mathlib

/-!
Shallow embedding of the AWS waste-management repository:
an inventory-aggregator Lambda handler (backend) and a React dashboard
(frontend).  Backend definitions follow `index.js` (the Lambda source);
frontend definitions follow `src/App.tsx`, `src/api.ts` and `src/types.ts`.
Provider (AWS SDK) responses are passed in explicitly as `Except`-valued
inputs; a JavaScript exception is modelled as an `Except.error`.
-/

namespace AwsWaste

/-- `types.ts`: the four resource kinds (`'EC2' | 'RDS' | 'EBS' | 'SNAPSHOT'`). -/
inductive AWSResourceType
  | EC2
  | RDS
  | EBS
  | SNAPSHOT
deriving DecidableEq, Repr

/-- `types.ts`: the all-optional `details` record of an `AWSResource`. -/
structure ResourceDetails where
  instanceType : Option String := none
  volumeSize : Option Nat := none
  snapshotSize : Option Nat := none
  engine : Option String := none
  volumeType : Option String := none
deriving DecidableEq, Repr

/-- `types.ts`: the normalized resource shape shared by backend and frontend. -/
structure AWSResource where
  id : String
  type : AWSResourceType
  name : String
  region : String
  state : String
  lastUsed : String
  cost : Int
  details : ResourceDetails
deriving DecidableEq, Repr

/-- An AWS tag record (`{ Key, Value }`). -/
structure Tag where
  Key : String
  Value : String
deriving DecidableEq, Repr

/-- The `State` object of an EC2 instance record (`instance.State.Name`). -/
structure Ec2State where
  Name : String
deriving DecidableEq, Repr

/-- An EC2 instance record as returned by `describeInstances`.
`Tags` is optional: AWS omits the tag collection on untagged instances. -/
structure Ec2Instance where
  InstanceId : String
  Tags : Option (List Tag)
  State : Ec2State
  LaunchTime : String
  InstanceType : String
deriving DecidableEq, Repr

/-- A reservation grouping EC2 instances (`Reservations[].Instances`). -/
structure Reservation where
  Instances : List Ec2Instance
deriving DecidableEq, Repr

/-- An RDS database instance record as returned by `describeDBInstances`. -/
structure DBInstance where
  DBInstanceIdentifier : String
  DBInstanceStatus : String
  DBInstanceClass : String
  Engine : String
  InstanceCreateTime : String
deriving DecidableEq, Repr

/-- An EBS volume record as returned by `describeVolumes`; `Tags` optional. -/
structure Volume where
  VolumeId : String
  Tags : Option (List Tag)
  State : String
  CreateTime : String
  Size : Nat
  VolumeType : String
deriving DecidableEq, Repr

/-- A snapshot record as returned by `describeSnapshots`; `Tags` optional. -/
structure Snapshot where
  SnapshotId : String
  Tags : Option (List Tag)
  State : String
  StartTime : String
  VolumeSize : Nat
deriving DecidableEq, Repr

/-- JavaScript `a || b` on a possibly-undefined string `a`:
`undefined` and the empty string are falsy. -/
def jsOr (a : Option String) (b : String) : String :=
  match a with
  | some s => if s = "" then b else s
  | none => b

/-- JavaScript `a || b` where both sides are possibly-undefined strings. -/
def jsOrOpt (a : Option String) (b : Option String) : Option String :=
  match a with
  | some s => if s = "" then b else some s
  | none => b

/-- The body of the per-instance arrow function inside `getEC2Resources`:
`instance.Tags.find(tag => tag.Key === 'Name')?.Value || instance.InstanceId`.
`Tags` is accessed without optional chaining, so a record with no tag
collection raises a `TypeError` (modelled as `Except.error`). -/
def mapEC2Instance (region : String) (i : Ec2Instance) : Except String AWSResource :=
  match i.Tags with
  | none => .error "TypeError: Cannot read properties of undefined (reading find)"
  | some tags =>
    .ok { id := i.InstanceId
          type := .EC2
          name := jsOr ((tags.find? (fun t => decide (t.Key = "Name"))).map Tag.Value) i.InstanceId
          region := region
          state := i.State.Name
          lastUsed := i.LaunchTime
          cost := 0
          details := { instanceType := some i.InstanceType } }

/-- The same mapping restricted to instances whose tag collection is present
(the branch of `mapEC2Instance` that does not throw). -/
def mapEC2InstanceTagged (region : String) (i : Ec2Instance) : AWSResource :=
  { id := i.InstanceId
    type := .EC2
    name := jsOr (((i.Tags.getD []).find? (fun t => decide (t.Key = "Name"))).map Tag.Value) i.InstanceId
    region := region
    state := i.State.Name
    lastUsed := i.LaunchTime
    cost := 0
    details := { instanceType := some i.InstanceType } }

/-- `getEC2Resources`: flatten `Reservations[].Instances` and normalize each
record.  The provider response itself may fail (promise rejection). -/
def getEC2Resources (region : String) (resp : Except String (List Reservation)) :
    Except String (List AWSResource) :=
  resp.bind (fun reservations =>
    (reservations.flatMap Reservation.Instances).mapM (mapEC2Instance region))

/-- The per-record mapping inside `getRDSResources`; the name is always the
identifier — no tag lookup. -/
def mapDBInstance (region : String) (i : DBInstance) : AWSResource :=
  { id := i.DBInstanceIdentifier
    type := .RDS
    name := i.DBInstanceIdentifier
    region := region
    state := i.DBInstanceStatus
    lastUsed := i.InstanceCreateTime
    cost := 0
    details := { instanceType := some i.DBInstanceClass, engine := some i.Engine } }

/-- `getRDSResources`: client-side filter to `DBInstanceStatus === 'stopped'`,
then normalize. -/
def getRDSResources (region : String) (resp : Except String (List DBInstance)) :
    Except String (List AWSResource) :=
  resp.map (fun instances =>
    (instances.filter (fun i => decide (i.DBInstanceStatus = "stopped"))).map
      (mapDBInstance region))

/-- The per-volume mapping inside `getEBSResources`; tag access uses optional
chaining (`volume.Tags?.find(...)?.Value || volume.VolumeId`), so it is total. -/
def mapVolume (region : String) (v : Volume) : AWSResource :=
  { id := v.VolumeId
    type := .EBS
    name := jsOr ((v.Tags.bind (fun ts =>
      ts.find? (fun t => decide (t.Key = "Name")))).map Tag.Value) v.VolumeId
    region := region
    state := v.State
    lastUsed := v.CreateTime
    cost := 0
    details := { volumeSize := some v.Size, volumeType := some v.VolumeType } }

/-- `getEBSResources`: normalize every volume of the provider response. -/
def getEBSResources (region : String) (resp : Except String (List Volume)) :
    Except String (List AWSResource) :=
  resp.map (fun volumes => volumes.map (mapVolume region))

/-- The per-snapshot mapping inside `getSnapshots`; tag access uses optional
chaining, so it is total. -/
def mapSnapshot (region : String) (s : Snapshot) : AWSResource :=
  { id := s.SnapshotId
    type := .SNAPSHOT
    name := jsOr ((s.Tags.bind (fun ts =>
      ts.find? (fun t => decide (t.Key = "Name")))).map Tag.Value) s.SnapshotId
    region := region
    state := s.State
    lastUsed := s.StartTime
    cost := 0
    details := { snapshotSize := some s.VolumeSize } }

/-- `getSnapshots`: normalize every snapshot of the provider response. -/
def getSnapshots (region : String) (resp : Except String (List Snapshot)) :
    Except String (List AWSResource) :=
  resp.map (fun snapshots => snapshots.map (mapSnapshot region))

/-- The AWS environment a handler invocation runs against: the configured
region (`process.env.AWS_REGION`) and the outcome of each of the four
provider queries issued by the GET branch. -/
structure ProviderEnv where
  region : String
  describeInstancesResp : Except String (List Reservation)
  describeDBInstancesResp : Except String (List DBInstance)
  describeVolumesResp : Except String (List Volume)
  describeSnapshotsResp : Except String (List Snapshot)

/-- The `Promise.all` of the GET branch followed by the spread concatenation
`[...ec2Resources, ...rdsResources, ...ebsResources, ...snapshotResources]`. -/
def getAllResources (env : ProviderEnv) : Except String (List AWSResource) := do
  let ec2Resources ← getEC2Resources env.region env.describeInstancesResp
  let rdsResources ← getRDSResources env.region env.describeDBInstancesResp
  let ebsResources ← getEBSResources env.region env.describeVolumesResp
  let snapshotResources ← getSnapshots env.region env.describeSnapshotsResp
  pure (ec2Resources ++ rdsResources ++ ebsResources ++ snapshotResources)

/-- `event.requestContext.http` as far as the handler reads it. -/
structure HttpInfo where
  method : String
deriving DecidableEq, Repr

/-- `event.requestContext`; the `http` field may be absent. -/
structure RequestContext where
  http : Option HttpInfo
deriving DecidableEq, Repr

/-- `event.pathParameters`; the `id` field may be absent. -/
structure PathParameters where
  id : Option String
deriving DecidableEq, Repr

/-- The Lambda event as far as the handler reads it; every field may be
absent (`undefined`). -/
structure Event where
  httpMethod : Option String := none
  requestContext : Option RequestContext := none
  pathParameters : Option PathParameters := none
deriving DecidableEq, Repr

/-- `event.httpMethod || event.requestContext?.http?.method`. -/
def eventMethod (e : Event) : Option String :=
  jsOrOpt e.httpMethod ((e.requestContext.bind RequestContext.http).map HttpInfo.method)

/-- The JSON payload placed in a response body (the argument of
`JSON.stringify`, or the empty body of the OPTIONS response). -/
inductive RespBody
  | resources (rs : List AWSResource)
  | message (m : String)
  | error (e : String)
  | empty
deriving DecidableEq, Repr

/-- An HTTP response produced by the handler. -/
structure Response where
  statusCode : Nat
  headers : List (String × String)
  body : RespBody
deriving DecidableEq, Repr

/-- One AWS SDK call the handler can issue against the provider. -/
inductive ProviderCall
  | describeInstances
  | describeDBInstances
  | describeVolumes
  | describeSnapshots
  | deleteCall (resourceId : String)
deriving DecidableEq, Repr

/-- The full header set attached to GET/DELETE/OPTIONS responses. -/
def corsHeaders : List (String × String) :=
  [("Access-Control-Allow-Origin", "*"),
   ("Access-Control-Allow-Methods", "GET, DELETE, OPTIONS"),
   ("Access-Control-Allow-Headers", "Content-Type"),
   ("Content-Type", "application/json")]

/-- The reduced header set of the 405 and 500 responses. -/
def errorHeaders : List (String × String) :=
  [("Access-Control-Allow-Origin", "*"),
   ("Content-Type", "application/json")]

/-- The catch-all of the handler: a thrown error becomes a 500 response with
`error.message || 'Internal server error'`. -/
def errorResponse (msg : String) : Response :=
  { statusCode := 500
    headers := errorHeaders
    body := .error (if msg = "" then "Internal server error" else msg) }

/-- `exports.handler`: dispatch on the HTTP method.  The result pairs the
response with the list of provider SDK calls the invocation issued; the
DELETE branch issues none (the deletion logic is an unimplemented stub).
A thrown error (missing DELETE id, failed provider query) is caught by the
single try/catch and mapped to `errorResponse`. -/
def handler (env : ProviderEnv) (event : Event) : Response × List ProviderCall :=
  let m := eventMethod event
  if m = some "GET" then
    let calls : List ProviderCall :=
      [.describeInstances, .describeDBInstances, .describeVolumes, .describeSnapshots]
    match getAllResources env with
    | .ok allResources =>
        ({ statusCode := 200, headers := corsHeaders, body := .resources allResources }, calls)
    | .error e => (errorResponse e, calls)
  else if m = some "DELETE" then
    match event.pathParameters.bind PathParameters.id with
    | none => (errorResponse "Resource ID is required", [])
    | some resourceId =>
      if resourceId = "" then
        (errorResponse "Resource ID is required", [])
      else
        ({ statusCode := 200, headers := corsHeaders,
           body := .message ("Resource " ++ resourceId ++ " deleted successfully") }, [])
  else if m = some "OPTIONS" then
    ({ statusCode := 200, headers := corsHeaders, body := .empty }, [])
  else
    ({ statusCode := 405, headers := errorHeaders, body := .error "Method not allowed" }, [])

/-! Frontend (`src/api.ts` and `src/App.tsx`).  The HTTP transport is passed
in explicitly; each operation returns the list of HTTP requests it issued
alongside its result, so "no network call" is a provable statement. -/

/-- An HTTP request issued by the dashboard through the axios instance. -/
structure HttpRequest where
  method : String
  path : String
deriving DecidableEq, Repr

/-- `api.ts` `deleteResource`: always issues `DELETE /resources/{id}` and
returns `true` on success, `false` when the request throws. -/
def deleteResource (transport : HttpRequest → Except String Unit) (resourceId : String) :
    List HttpRequest × Bool :=
  let req : HttpRequest := { method := "DELETE", path := "/resources/" ++ resourceId }
  match transport req with
  | .ok _ => ([req], true)
  | .error _ => ([req], false)

/-- The dashboard state touched by delete/export: the loaded resource list
and the error banner. -/
structure DashboardState where
  resources : List AWSResource
  error : Option String
deriving DecidableEq, Repr

/-- `App.tsx` `handleDelete`: after `window.confirm` (the `confirmed` flag),
call `deleteResource`; on success drop every row with the deleted id
(`resources.filter(r => r.id !== id)`), on failure set the error banner. -/
def handleDelete (transport : HttpRequest → Except String Unit) (confirmed : Bool)
    (s : DashboardState) (id : String) : List HttpRequest × DashboardState :=
  if confirmed then
    let r := deleteResource transport id
    if r.2 then
      (r.1, { resources := s.resources.filter (fun x => decide (x.id ≠ id)), error := s.error })
    else
      (r.1, { resources := s.resources, error := some "Failed to delete resource" })
  else
    ([], s)

/-- `App.tsx` `exportToExcel`: with an empty list, set the error banner and
produce no file; otherwise build the spreadsheet from the full `resources`
list.  The result pairs the new error banner with the rows of the produced
file (`none` = no file written). -/
def exportToExcel (resources : List AWSResource) (error : Option String) :
    Option String × Option (List AWSResource) :=
  if resources.length = 0 then
    (some "No resources available to export", none)
  else
    (error, some resources)

/-- `App.tsx` `getResourceStats`: one tile per type, counting and cost-summing
the full unfiltered list. -/
structure ResourceTypeCount where
  type : AWSResourceType
  count : Nat
  totalCost : Int
deriving DecidableEq, Repr

/-- `getResourceStats`: map over the fixed type list `['EC2','RDS','EBS','SNAPSHOT']`. -/
def getResourceStats (resources : List AWSResource) : List ResourceTypeCount :=
  [AWSResourceType.EC2, AWSResourceType.RDS, AWSResourceType.EBS, AWSResourceType.SNAPSHOT].map
    (fun t =>
      { type := t
        count := (resources.filter (fun r => decide (r.type = t))).length
        totalCost := (resources.filter (fun r => decide (r.type = t))).foldl
          (fun sum r => sum + r.cost) 0 })

/-- The dashboard type filter: one of the four types, or `'ALL'`. -/
inductive TypeFilter
  | all
  | only (t : AWSResourceType)
deriving DecidableEq, Repr

/-- `App.tsx` `filteredResources`: the full list under `'ALL'`, otherwise the
client-side filter `resources.filter(r => r.type === selectedType)`. -/
def filteredResources (resources : List AWSResource) (selectedType : TypeFilter) :
    List AWSResource :=
  match selectedType with
  | .all => resources
  | .only t => resources.filter (fun r => decide (r.type = t))

/-! Concrete sample inputs used by closed theorems and witnesses. -/

/-- An environment whose four provider queries all succeed with empty lists. -/
def emptyEnv : ProviderEnv :=
  { region := "us-east-1"
    describeInstancesResp := .ok []
    describeDBInstancesResp := .ok []
    describeVolumesResp := .ok []
    describeSnapshotsResp := .ok [] }

/-- A GET event. -/
def getEvent : Event := { httpMethod := some "GET" }

/-- A DELETE event carrying no path parameters. -/
def deleteNoIdEvent : Event := { httpMethod := some "DELETE" }

/-- A DELETE event carrying a path-provided id. -/
def deleteEvent (rid : String) : Event :=
  { httpMethod := some "DELETE", pathParameters := some { id := some rid } }

/-- A stopped EC2 instance record with no tag collection. -/
def instanceNoTags : Ec2Instance :=
  { InstanceId := "i-0abc123"
    Tags := none
    State := { Name := "stopped" }
    LaunchTime := "2024-01-01T00:00:00.000Z"
    InstanceType := "t2.micro" }

/-- An available EBS volume record with no tag collection. -/
def volumeNoTags : Volume :=
  { VolumeId := "vol-0def456"
    Tags := none
    State := "available"
    CreateTime := "2024-01-02T00:00:00.000Z"
    Size := 8
    VolumeType := "gp2" }

/-- A snapshot record with no tag collection. -/
def snapshotNoTags : Snapshot :=
  { SnapshotId := "snap-0aaa789"
    Tags := none
    State := "completed"
    StartTime := "2024-01-03T00:00:00.000Z"
    VolumeSize := 8 }

/-- A stopped RDS instance record. -/
def dbStopped : DBInstance :=
  { DBInstanceIdentifier := "db-1"
    DBInstanceStatus := "stopped"
    DBInstanceClass := "db.t3.micro"
    Engine := "mysql"
    InstanceCreateTime := "2024-01-04T00:00:00.000Z" }

/-- An environment whose compute query returns one untagged instance. -/
def envNoTags : ProviderEnv :=
  { emptyEnv with describeInstancesResp := .ok [{ Instances := [instanceNoTags] }] }

/-- An environment whose compute query fails. -/
def failEnv : ProviderEnv :=
  { emptyEnv with describeInstancesResp := .error "Request failed" }

/-- A sample normalized compute resource. -/
def demoEC2 : AWSResource :=
  { id := "i-1"
    type := .EC2
    name := "i-1"
    region := "us-east-1"
    state := "stopped"
    lastUsed := "2024-01-01T00:00:00.000Z"
    cost := 0
    details := { instanceType := some "t2.micro" } }

/-- A sample normalized volume resource sharing its id with `demoEC2`. -/
def demoEBS : AWSResource :=
  { id := "i-1"
    type := .EBS
    name := "vol"
    region := "us-east-1"
    state := "available"
    lastUsed := "2024-01-02T00:00:00.000Z"
    cost := 0
    details := { volumeSize := some 8, volumeType := some "gp2" } }

/-- A sample normalized managed-database resource. -/
def demoRDS : AWSResource :=
  { id := "db-1"
    type := .RDS
    name := "db-1"
    region := "us-east-1"
    state := "stopped"
    lastUsed := "2024-01-04T00:00:00.000Z"
    cost := 0
    details := { instanceType := some "db.t3.micro", engine := some "mysql" } }

/-- A dashboard state in which two resources of different types share id
`i-1` and one resource has a different id. -/
def demoDelState : DashboardState :=
  { resources := [demoEC2, demoEBS, demoRDS], error := none }

end AwsWaste

namespace AwsWaste

/-!  Theorems settling the claims.  -/

/-- C1: the claim states that for every one of the four resource kinds a
provider record with a missing name-tag collection maps without an exception
to a Resource with `name = id`.  The code violates this for the compute kind:
`getEC2Resources` reads `instance.Tags.find(...)` without optional chaining,
so an untagged instance throws a `TypeError` and the whole GET request fails
with a 500.  The other three kinds behave as claimed (volume and snapshot use
optional chaining and fall back to the id; managed-db never reads tags). -/
theorem missing_tags_throws_on_compute :
    (mapEC2Instance "us-east-1" instanceNoTags
        = .error "TypeError: Cannot read properties of undefined (reading find)")
    ∧ (handler envNoTags getEvent).1.statusCode = 500
    ∧ (mapVolume "us-east-1" volumeNoTags).name = volumeNoTags.VolumeId
    ∧ (mapSnapshot "us-east-1" snapshotNoTags).name = snapshotNoTags.SnapshotId
    ∧ (mapDBInstance "us-east-1" dbStopped).name = dbStopped.DBInstanceIdentifier := by
  refine ⟨rfl, ?_, rfl, rfl, rfl⟩
  rfl

/-- C2 counterexample: the claim states a DELETE request with a missing id
yields status 400; on the code the thrown `Resource ID is required` error is
caught by the single try/catch and mapped to status 500, not 400. -/
theorem delete_missing_id_not_400 :
    (handler emptyEnv deleteNoIdEvent).1.statusCode = 500
    ∧ (handler emptyEnv deleteNoIdEvent).1.statusCode ≠ 400 := by
  have h : (handler emptyEnv deleteNoIdEvent).1.statusCode = 500 := rfl
  exact ⟨h, by rw [h]; decide⟩

/-- C2 amended: for every DELETE request whose path-provided resource id is
missing or empty, the handler returns status 500 with the error message
`Resource ID is required` (the thrown error reaches the generic catch-all),
not 400. -/
theorem delete_missing_or_empty_id_returns_500 (env : ProviderEnv) (e : Event)
    (hm : eventMethod e = some "DELETE")
    (hid : e.pathParameters.bind PathParameters.id = none
        ∨ e.pathParameters.bind PathParameters.id = some "") :
    (handler env e).1
      = { statusCode := 500, headers := errorHeaders,
          body := .error "Resource ID is required" } := by
  rcases hid with h | h <;> simp [handler, hm, h, errorResponse]

/-- C2 witness: the amended statement evaluated on a concrete DELETE event
with no path parameters. -/
theorem delete_missing_id_returns_500_witness :
    (handler emptyEnv deleteNoIdEvent).1
      = { statusCode := 500, headers := errorHeaders,
          body := .error "Resource ID is required" } :=
  delete_missing_or_empty_id_returns_500 emptyEnv deleteNoIdEvent rfl (Or.inl rfl)

/-- C5: every DELETE request with a non-empty path-provided id returns
status 200 with the success message, whatever the provider environment (the
id need not name an existing resource of any type), and the invocation issues
no provider SDK call at all — in particular no deletion call. -/
theorem delete_nonempty_id_always_succeeds (env : ProviderEnv) (e : Event) (rid : String)
    (hm : eventMethod e = some "DELETE")
    (hid : e.pathParameters.bind PathParameters.id = some rid)
    (hne : rid ≠ "") :
    handler env e
      = ({ statusCode := 200, headers := corsHeaders,
           body := .message ("Resource " ++ rid ++ " deleted successfully") }, []) := by
  simp [handler, hm, hid, hne]

/-- C5 witness: a concrete DELETE of an id that names nothing still returns
200 and issues no provider call. -/
theorem delete_nonempty_id_witness :
    handler emptyEnv (deleteEvent "i-does-not-exist")
      = ({ statusCode := 200, headers := corsHeaders,
           body := .message ("Resource " ++ "i-does-not-exist" ++ " deleted successfully") },
         []) :=
  delete_nonempty_id_always_succeeds emptyEnv (deleteEvent "i-does-not-exist")
    "i-does-not-exist" rfl rfl (by decide)

/-- C6 counterexample: the claim states a delete with an empty id is rejected
before any network call; on the code `handleDelete` performs no id check, so
once confirmed it issues `DELETE /resources/` (a network request) even for the
empty id. -/
theorem delete_empty_id_still_calls_network :
    ((handleDelete (fun _ => Except.ok ()) true { resources := [], error := none } "").1
        = [{ method := "DELETE", path := "/resources/" }])
    ∧ (handleDelete (fun _ => Except.ok ()) true { resources := [], error := none } "").1
        ≠ [] := by
  exact ⟨rfl, by decide⟩

/-- C6 amended: the Dashboard performs no client-side id validation: for every
id, the empty id included, once the user confirms, `handleDelete` issues
exactly one network request, `DELETE /resources/{id}`. -/
theorem handleDelete_no_client_side_validation (transport : HttpRequest → Except String Unit)
    (s : DashboardState) (rid : String) :
    (handleDelete transport true s rid).1
      = [{ method := "DELETE", path := "/resources/" ++ rid }] := by
  unfold handleDelete deleteResource
  cases h : transport { method := "DELETE", path := "/resources/" ++ rid } <;> simp [h]

/-- C8: the Dashboard filter is a pure function of the list and the selected
type: selecting `'ALL'` yields the unfiltered list, and selecting a type
yields exactly the order-preserving sublist of elements of that type. -/
theorem filteredResources_pure (resources : List AWSResource) (t : AWSResourceType) :
    filteredResources resources TypeFilter.all = resources
    ∧ filteredResources resources (TypeFilter.only t)
        = resources.filter (fun r => decide (r.type = t))
    ∧ (filteredResources resources (TypeFilter.only t)).Sublist resources
    ∧ ∀ r, r ∈ filteredResources resources (TypeFilter.only t) ↔ r ∈ resources ∧ r.type = t := by
  refine ⟨rfl, rfl, List.filter_sublist resources, ?_⟩
  intro r
  simp [filteredResources, List.mem_filter]

/-- C9: exporting with an empty loaded list produces no file and sets the
user-visible error, and whenever a file is produced its rows are exactly the
full currently loaded list (not a filtered subset). -/
theorem exportToExcel_spec (resources : List AWSResource) (error : Option String) :
    ((exportToExcel resources error).2 = none ↔ resources = [])
    ∧ (resources = []
        → (exportToExcel resources error).1 = some "No resources available to export")
    ∧ ∀ rows, (exportToExcel resources error).2 = some rows → rows = resources := by
  unfold exportToExcel
  rcases resources with _ | ⟨r, rs⟩ <;> simp

/-- C9 witness: the export evaluated on the empty list and on a concrete
one-element list. -/
theorem exportToExcel_witness :
    (exportToExcel [] none).1 = some "No resources available to export"
    ∧ (exportToExcel [demoEC2] none).2 = some [demoEC2] :=
  ⟨(exportToExcel_spec [] none).2.1 rfl, rfl⟩

/-! Helper lemmas about the `Except` monad and the normalizers, shared by the
remaining claims. -/

theorem except_bind_ok {α β : Type} (a : α) (f : α → Except String β) :
    (Except.ok a : Except String α) >>= f = f a := rfl

theorem except_bind_error {α β : Type} (msg : String) (f : α → Except String β) :
    (Except.error msg : Except String α) >>= f = Except.error msg := rfl

theorem except_pure {α : Type} (a : α) : (pure a : Except String α) = Except.ok a := rfl

/-- On a record whose tag collection is present, the compute mapper does not
throw and agrees with its total restriction. -/
theorem mapEC2Instance_tagged (region : String) (i : Ec2Instance)
    (h : i.Tags.isSome = true) :
    mapEC2Instance region i = .ok (mapEC2InstanceTagged region i) := by
  rcases hT : i.Tags with _ | ts
  · rw [hT] at h; cases h
  · simp [mapEC2Instance, mapEC2InstanceTagged, hT]

/-- Normalizing a list of instances whose tag collections are all present
succeeds and is the element-wise (order-preserving) total map. -/
theorem mapM_mapEC2_tagged (region : String) :
    ∀ (l : List Ec2Instance), (∀ i ∈ l, i.Tags.isSome = true)
      → l.mapM (mapEC2Instance region) = .ok (l.map (mapEC2InstanceTagged region))
  | [], _ => rfl
  | i :: is, h => by
    have hi : i.Tags.isSome = true := h i (List.mem_cons_self i is)
    have his : ∀ j ∈ is, j.Tags.isSome = true := fun j hj => h j (List.mem_cons_of_mem i hj)
    rw [List.mapM_cons, mapEC2Instance_tagged region i hi, except_bind_ok,
      mapM_mapEC2_tagged region is his, except_bind_ok]
    rfl

/-- C3 counterexample: the claim quantifies over every GET request on which
all four provider queries succeed, but that domain includes responses with an
untagged compute record.  In `envNoTags` all four queries succeed (`.ok`),
yet the GET returns 500 and its body carries no resource list at all: the
compute normalization throws on the untagged record, so no concatenation is
returned. -/
theorem all_queries_ok_yet_no_list :
    envNoTags.describeInstancesResp.isOk = true
    ∧ envNoTags.describeDBInstancesResp.isOk = true
    ∧ envNoTags.describeVolumesResp.isOk = true
    ∧ envNoTags.describeSnapshotsResp.isOk = true
    ∧ (handler envNoTags getEvent).1.statusCode = 500
    ∧ (handler envNoTags getEvent).1.statusCode ≠ 200
    ∧ ∀ rs, (handler envNoTags getEvent).1.body ≠ .resources rs := by
  refine ⟨rfl, rfl, rfl, rfl, rfl, by decide, ?_⟩
  intro rs
  have hb : (handler envNoTags getEvent).1.body
      = .error "TypeError: Cannot read properties of undefined (reading find)" := rfl
  rw [hb]
  intro hcontra
  exact RespBody.noConfusion hcontra

/-- C3 amended: on a GET request on which the four provider queries succeed
and every returned compute record carries a tag collection (so the
normalization of the C1 bug does not throw), the response is a 200 whose
resource list is exactly the concatenation, in the fixed order compute,
managed-db, volume, snapshot, of the four element-wise normalized sublists,
each preserving provider response order, with no additional sorting and
regardless of sublist sizes, including all-empty. -/
theorem list_concat_fixed_order (env : ProviderEnv) (e : Event)
    (rsv : List Reservation) (dbs : List DBInstance)
    (vols : List Volume) (snaps : List Snapshot)
    (hm : eventMethod e = some "GET")
    (h1 : env.describeInstancesResp = .ok rsv)
    (htags : ∀ i ∈ rsv.flatMap Reservation.Instances, i.Tags.isSome = true)
    (h2 : env.describeDBInstancesResp = .ok dbs)
    (h3 : env.describeVolumesResp = .ok vols)
    (h4 : env.describeSnapshotsResp = .ok snaps) :
    (handler env e).1
      = { statusCode := 200, headers := corsHeaders,
          body := .resources
            ((rsv.flatMap Reservation.Instances).map (mapEC2InstanceTagged env.region)
              ++ (dbs.filter (fun i => decide (i.DBInstanceStatus = "stopped"))).map
                  (mapDBInstance env.region)
              ++ vols.map (mapVolume env.region)
              ++ snaps.map (mapSnapshot env.region)) } := by
  have hall : getAllResources env
      = .ok ((rsv.flatMap Reservation.Instances).map (mapEC2InstanceTagged env.region)
          ++ (dbs.filter (fun i => decide (i.DBInstanceStatus = "stopped"))).map
              (mapDBInstance env.region)
          ++ vols.map (mapVolume env.region)
          ++ snaps.map (mapSnapshot env.region)) := by
    have hec2 : getEC2Resources env.region env.describeInstancesResp
        = .ok ((rsv.flatMap Reservation.Instances).map (mapEC2InstanceTagged env.region)) := by
      rw [h1]
      exact mapM_mapEC2_tagged env.region _ htags
    simp [getAllResources, hec2, getRDSResources, getEBSResources, getSnapshots,
      h2, h3, h4, except_bind_ok, except_pure, Except.map, List.append_assoc]
  simp [handler, hm, hall]

/-- C3 witness: the all-empty case — every provider query succeeds with an
empty list and the response body is the empty concatenation. -/
theorem list_concat_fixed_order_witness :
    (handler emptyEnv getEvent).1
      = { statusCode := 200, headers := corsHeaders, body := .resources [] } := by
  have h := list_concat_fixed_order emptyEnv getEvent [] [] [] [] rfl rfl
    (by intro i hi; cases hi) rfl rfl rfl
  simpa using h

/-- Each getter propagates a failed provider query as the same error. -/
theorem getAllResources_fails (env : ProviderEnv)
    (hfail : env.describeInstancesResp.isOk = false
      ∨ env.describeDBInstancesResp.isOk = false
      ∨ env.describeVolumesResp.isOk = false
      ∨ env.describeSnapshotsResp.isOk = false) :
    ∃ msg, getAllResources env = .error msg := by
  rcases hA : getEC2Resources env.region env.describeInstancesResp with m | l1
  · exact ⟨m, by simp [getAllResources, hA, except_bind_error]⟩
  rcases hB : getRDSResources env.region env.describeDBInstancesResp with m | l2
  · exact ⟨m, by simp [getAllResources, hA, hB, except_bind_ok, except_bind_error]⟩
  rcases hC : getEBSResources env.region env.describeVolumesResp with m | l3
  · exact ⟨m, by simp [getAllResources, hA, hB, hC, except_bind_ok, except_bind_error]⟩
  rcases hD : getSnapshots env.region env.describeSnapshotsResp with m | l4
  · exact ⟨m, by simp [getAllResources, hA, hB, hC, hD, except_bind_ok, except_bind_error]⟩
  exfalso
  rcases hfail with h | h | h | h
  · rcases hr : env.describeInstancesResp with m | x
    · rw [hr] at hA; cases hA
    · rw [hr] at h; cases h
  · rcases hr : env.describeDBInstancesResp with m | x
    · rw [hr] at hB; cases hB
    · rw [hr] at h; cases h
  · rcases hr : env.describeVolumesResp with m | x
    · rw [hr] at hC; cases hC
    · rw [hr] at h; cases h
  · rcases hr : env.describeSnapshotsResp with m | x
    · rw [hr] at hD; cases hD
    · rw [hr] at h; cases h

/-- C4: on a GET request on which at least one of the four provider queries
fails, the handler produces a single 500 error outcome carrying an error
message, and the body carries no resource list at all — no partial list. -/
theorem list_failfast_returns_error (env : ProviderEnv) (e : Event)
    (hm : eventMethod e = some "GET")
    (hfail : env.describeInstancesResp.isOk = false
      ∨ env.describeDBInstancesResp.isOk = false
      ∨ env.describeVolumesResp.isOk = false
      ∨ env.describeSnapshotsResp.isOk = false) :
    (handler env e).1.statusCode = 500
    ∧ (∃ msg, (handler env e).1.body = .error msg)
    ∧ ∀ rs, (handler env e).1.body ≠ .resources rs := by
  obtain ⟨msg, hmsg⟩ := getAllResources_fails env hfail
  refine ⟨?_, ⟨if msg = "" then "Internal server error" else msg, ?_⟩, ?_⟩
  · simp [handler, hm, hmsg, errorResponse]
  · simp [handler, hm, hmsg, errorResponse]
  · intro rs
    simp [handler, hm, hmsg, errorResponse]

/-- C4 witness: a concrete environment whose compute query fails yields a 500
with an error body and no resource list. -/
theorem list_failfast_witness :
    (handler failEnv getEvent).1.statusCode = 500
    ∧ (∃ msg, (handler failEnv getEvent).1.body = .error msg)
    ∧ ∀ rs, (handler failEnv getEvent).1.body ≠ .resources rs :=
  list_failfast_returns_error failEnv getEvent rfl (Or.inl rfl)

/-- Folding the cost sum over a list of zero-cost resources returns the
accumulator unchanged. -/
theorem foldl_cost_eq :
    ∀ (l : List AWSResource), (∀ r ∈ l, r.cost = 0)
      → ∀ (a : Int), l.foldl (fun sum r => sum + r.cost) a = a
  | [], _, _ => rfl
  | r :: rs, h, a => by
    have hr : r.cost = 0 := h r (List.mem_cons_self r rs)
    rw [List.foldl_cons, hr, add_zero]
    exact foldl_cost_eq rs (fun x hx => h x (List.mem_cons_of_mem r hx)) a

/-- The four per-type filters partition the resource list: every resource has
exactly one of the four types. -/
theorem filter_type_length_partition (l : List AWSResource) :
    (l.filter (fun r => decide (r.type = .EC2))).length
      + (l.filter (fun r => decide (r.type = .RDS))).length
      + (l.filter (fun r => decide (r.type = .EBS))).length
      + (l.filter (fun r => decide (r.type = .SNAPSHOT))).length
      = l.length := by
  induction l with
  | nil => rfl
  | cons r rs ih =>
    cases h : r.type <;> simp [List.filter_cons, h] <;> omega

/-- Every resource produced by the compute mapper has cost 0. -/
theorem mapEC2Instance_cost (region : String) (i : Ec2Instance) (r : AWSResource)
    (h : mapEC2Instance region i = .ok r) : r.cost = 0 := by
  rcases hT : i.Tags with _ | ts <;> simp [mapEC2Instance, hT] at h
  rw [← h]

/-- `mapM` into `Except` only yields elements produced by an `.ok` of the
mapper. -/
theorem mapM_cost_zero {α : Type} (f : α → Except String AWSResource)
    (hf : ∀ a r, f a = .ok r → r.cost = 0) :
    ∀ (l : List α) (out : List AWSResource),
      l.mapM f = .ok out → ∀ r ∈ out, r.cost = 0
  | [], out, h => by
    have h2 : ([] : List AWSResource) = out := by injection h
    intro r hr
    rw [← h2] at hr
    cases hr
  | a :: l, out, h => by
    rw [List.mapM_cons] at h
    rcases ha : f a with m | r0
    · rw [ha, except_bind_error] at h; cases h
    · rw [ha, except_bind_ok] at h
      rcases hl : l.mapM f with m | rs0
      · rw [hl, except_bind_error] at h; cases h
      · rw [hl, except_bind_ok, except_pure] at h
        cases h
        intro r hr
        rcases List.mem_cons.mp hr with hr0 | hrs
        · rw [hr0]; exact hf a r0 ha
        · exact mapM_cost_zero f hf l rs0 hl r hrs

/-- Every resource produced by `getEC2Resources` has cost 0. -/
theorem getEC2Resources_cost (region : String) (resp : Except String (List Reservation))
    (l : List AWSResource) (h : getEC2Resources region resp = .ok l) :
    ∀ r ∈ l, r.cost = 0 := by
  rcases resp with m | rsv
  · cases h
  · exact mapM_cost_zero (mapEC2Instance region) (mapEC2Instance_cost region)
      (rsv.flatMap Reservation.Instances) l h

/-- Every resource produced by `getRDSResources` has cost 0. -/
theorem getRDSResources_cost (region : String) (resp : Except String (List DBInstance))
    (l : List AWSResource) (h : getRDSResources region resp = .ok l) :
    ∀ r ∈ l, r.cost = 0 := by
  rcases resp with m | dbs
  · cases h
  · simp [getRDSResources, Except.map] at h
    intro r hr
    rw [← h] at hr
    rcases List.mem_map.mp hr with ⟨i, _, hri⟩
    rw [← hri]
    rfl

/-- Every resource produced by `getEBSResources` has cost 0. -/
theorem getEBSResources_cost (region : String) (resp : Except String (List Volume))
    (l : List AWSResource) (h : getEBSResources region resp = .ok l) :
    ∀ r ∈ l, r.cost = 0 := by
  rcases resp with m | vols
  · cases h
  · simp [getEBSResources, Except.map] at h
    intro r hr
    rw [← h] at hr
    rcases List.mem_map.mp hr with ⟨v, _, hrv⟩
    rw [← hrv]
    rfl

/-- Every resource produced by `getSnapshots` has cost 0. -/
theorem getSnapshots_cost (region : String) (resp : Except String (List Snapshot))
    (l : List AWSResource) (h : getSnapshots region resp = .ok l) :
    ∀ r ∈ l, r.cost = 0 := by
  rcases resp with m | snaps
  · cases h
  · simp [getSnapshots, Except.map] at h
    intro r hr
    rw [← h] at hr
    rcases List.mem_map.mp hr with ⟨sn, _, hrs⟩
    rw [← hrs]
    rfl

/-- Every resource in a successful aggregation has cost 0. -/
theorem getAllResources_cost (env : ProviderEnv) (l : List AWSResource)
    (h : getAllResources env = .ok l) : ∀ r ∈ l, r.cost = 0 := by
  rcases hA : getEC2Resources env.region env.describeInstancesResp with m | l1
  · simp [getAllResources, hA, except_bind_error] at h
  rcases hB : getRDSResources env.region env.describeDBInstancesResp with m | l2
  · simp [getAllResources, hA, hB, except_bind_ok, except_bind_error] at h
  rcases hC : getEBSResources env.region env.describeVolumesResp with m | l3
  · simp [getAllResources, hA, hB, hC, except_bind_ok, except_bind_error] at h
  rcases hD : getSnapshots env.region env.describeSnapshotsResp with m | l4
  · simp [getAllResources, hA, hB, hC, hD, except_bind_ok, except_bind_error] at h
  have hl : l = l1 ++ l2 ++ l3 ++ l4 := by
    have h' : getAllResources env = .ok (l1 ++ l2 ++ l3 ++ l4) := by
      simp [getAllResources, hA, hB, hC, hD, except_bind_ok, except_pure,
        List.append_assoc]
    rw [h'] at h
    cases h
    rfl
  intro r hr
  rw [hl] at hr
  simp [List.mem_append] at hr
  rcases hr with hr | hr | hr | hr
  · exact getEC2Resources_cost env.region env.describeInstancesResp l1 hA r hr
  · exact getRDSResources_cost env.region env.describeDBInstancesResp l2 hB r hr
  · exact getEBSResources_cost env.region env.describeVolumesResp l3 hC r hr
  · exact getSnapshots_cost env.region env.describeSnapshotsResp l4 hD r hr

/-- C7: over any in-memory resource list whose entries carry the cost the
normalizers produce (always 0), the summary tiles' counts sum to the length
of the full unfiltered list and every tile's totalCost is 0; and indeed every
resource of a successful aggregation is produced with cost 0. -/
theorem stats_partition_and_zero_cost (resources : List AWSResource)
    (hcost : ∀ r ∈ resources, r.cost = 0) :
    ((getResourceStats resources).map ResourceTypeCount.count).sum = resources.length
    ∧ (∀ s ∈ getResourceStats resources, s.totalCost = 0)
    ∧ ∀ (env : ProviderEnv) (l : List AWSResource),
        getAllResources env = .ok l → ∀ r ∈ l, r.cost = 0 := by
  refine ⟨?_, ?_, getAllResources_cost⟩
  · have hp := filter_type_length_partition resources
    simp [getResourceStats]
    omega
  · intro s hs
    simp [getResourceStats] at hs
    have hz : ∀ (t : AWSResourceType),
        (resources.filter (fun r => decide (r.type = t))).foldl
          (fun sum r => sum + r.cost) 0 = 0 := by
      intro t
      exact foldl_cost_eq _ (fun r hr => hcost r (List.mem_of_mem_filter hr)) 0
    rcases hs with h | h | h | h <;> rw [h] <;> exact hz _

/-- C7 witness: a concrete three-element list, one id shared across types. -/
theorem stats_partition_witness :
    ((getResourceStats [demoEC2, demoEBS, demoRDS]).map ResourceTypeCount.count).sum
        = ([demoEC2, demoEBS, demoRDS] : List AWSResource).length
    ∧ ∀ s ∈ getResourceStats [demoEC2, demoEBS, demoRDS], s.totalCost = 0 := by
  have h := stats_partition_and_zero_cost [demoEC2, demoEBS, demoRDS] (by decide)
  exact ⟨h.1, h.2.1⟩

/-- C10: after a confirmed delete of id X acknowledged by the backend, the
local removal keeps exactly the resources whose id differs from X: every
resource with id X disappears (across all types), and every other resource is
kept, in its original relative order. -/
theorem handleDelete_removes_every_matching_id
    (transport : HttpRequest → Except String Unit) (s : DashboardState) (rid : String)
    (hok : transport { method := "DELETE", path := "/resources/" ++ rid } = .ok ()) :
    (handleDelete transport true s rid).2.resources
        = s.resources.filter (fun r => decide (r.id ≠ rid))
    ∧ (∀ r ∈ (handleDelete transport true s rid).2.resources, r.id ≠ rid)
    ∧ ((handleDelete transport true s rid).2.resources).Sublist s.resources
    ∧ ∀ r ∈ s.resources, r.id ≠ rid → r ∈ (handleDelete transport true s rid).2.resources := by
  have hres : (handleDelete transport true s rid).2.resources
      = s.resources.filter (fun r => decide (r.id ≠ rid)) := by
    simp [handleDelete, deleteResource, hok]
  refine ⟨hres, ?_, ?_, ?_⟩
  · intro r hr
    rw [hres] at hr
    have := (List.mem_filter.mp hr).2
    simpa using this
  · rw [hres]
    exact List.filter_sublist s.resources
  · intro r hr hne
    rw [hres]
    exact List.mem_filter.mpr ⟨hr, by simpa using hne⟩

/-- C10 witness: deleting id `i-1` removes both the compute and the volume
resource carrying that id and keeps the managed-db resource. -/
theorem handleDelete_removes_every_matching_id_witness :
    (handleDelete (fun _ => Except.ok ()) true demoDelState "i-1").2.resources
      = [demoRDS] := by
  have h := handleDelete_removes_every_matching_id (fun _ => Except.ok ())
    demoDelState "i-1" rfl
  rw [h.1]
  rfl

end AwsWaste
